import Mathlib

/-!
Shallow embedding of the valuation engine in `src/Stable_financials.py`
(intrinsic-value calculator: DDM variants, residual income, FCFF-DCF).
Numeric values are modelled as rationals; percentage inputs are divided by
100 exactly as in the source.  Fallible branches return `Except Err _`,
mirroring the `st.error` early exits of the script.  Observable behaviour
(forecast-loop iterations, success display, history append) is additionally
modelled as an event trace per branch, following the source's control flow.
-/

namespace StableFinancials

/-- Error outcomes of the engine, named after the spec's taxonomy. -/
inductive Err where
  | invalidGrowthAssumption
  | invalidCapitalStructure
  | invalidShareCount
deriving DecidableEq

/-- A calculation result: intrinsic value per share, and the margin-of-safety
band when the branch displays one (only the FCFF branch does). -/
structure ValuationResult where
  iv : ℚ
  mos : Option (ℚ × ℚ)
deriving DecidableEq

/-- `g_from_roe` of the source: sustainable growth `roe * (1 - payout)`. -/
def g_from_roe (roeDec payoutDec : ℚ) : ℚ := roeDec * (1 - payoutDec)

/-- Gordon Growth DDM branch: `if g >= Ke` error, else `D1 / (Ke - g)`.
No margin-of-safety band is displayed in this branch of the source. -/
def gordonGrowth (D1 Ke g : ℚ) : Except Err ValuationResult :=
  if g ≥ Ke then .error .invalidGrowthAssumption
  else .ok { iv := D1 / (Ke - g), mos := none }

/-- ROE-based DDM branch: `g = ROE*(1-payout)`, `D1 = EPS*payout`,
`if g >= Ke` error, else `D1 / (Ke - g)`.  No band displayed. -/
def roeBasedDDM (EPS ROE payout Ke : ℚ) : Except Err ValuationResult :=
  let g := g_from_roe ROE payout
  let D1 := EPS * payout
  if g ≥ Ke then .error .invalidGrowthAssumption
  else .ok { iv := D1 / (Ke - g), mos := none }

/-- The two-stage DDM dividend loop's accumulated present value:
`pvDiv` after `n` iterations, `Dt = D0*(1+g_high)^t` discounted at `Ke`. -/
def twoStagePVDiv (D0 gHigh Ke : ℚ) : Nat → ℚ
  | 0 => 0
  | n + 1 => twoStagePVDiv D0 gHigh Ke n + D0 * (1 + gHigh) ^ (n + 1) / (1 + Ke) ^ (n + 1)

/-- Two-stage DDM branch: dividend loop, terminal dividend
`Dn1 = D0*(1+g_high)^n*(1+g_stable)`, then the `g_stable >= Ke` check, then
`TV = Dn1/(Ke-g_stable)`, `pvTV = TV/(1+Ke)^n`, `IV = pvDiv + pvTV`.
No band displayed. -/
def twoStageDDM (D0 gHigh : ℚ) (n : Nat) (gStable Ke : ℚ) : Except Err ValuationResult :=
  let pvDiv := twoStagePVDiv D0 gHigh Ke n
  let Dn1 := D0 * (1 + gHigh) ^ n * (1 + gStable)
  if gStable ≥ Ke then .error .invalidGrowthAssumption
  else
    let TV := Dn1 / (Ke - gStable)
    let pvTV := TV / (1 + Ke) ^ n
    .ok { iv := pvDiv + pvTV, mos := none }

/-- Residual-income loop state after `n` iterations: `(BVt, pvRI)`; per
iteration `earnings = ROE*BVt`, `dividends = earnings*payout`,
`residual = earnings - Ke*BVt`, discount at `(1+Ke)^t`, roll forward
`BVt + (earnings - dividends)`. -/
def riLoop (ROE payout Ke BV0 : ℚ) : Nat → ℚ × ℚ
  | 0 => (BV0, 0)
  | n + 1 =>
    let s := riLoop ROE payout Ke BV0 n
    let BVt := s.1
    let earnings := ROE * BVt
    let dividends := earnings * payout
    let residual := earnings - Ke * BVt
    let pv := residual / (1 + Ke) ^ (n + 1)
    (BVt + (earnings - dividends), s.2 + pv)

/-- Residual Income branch: `IV = BV0 + pvRI`; the source has no
precondition check in this branch.  No band displayed. -/
def residualIncome (BV0 ROE payout Ke : ℚ) (horizon : Nat) : Except Err ValuationResult :=
  .ok { iv := BV0 + (riLoop ROE payout Ke BV0 horizon).2, mos := none }

/-- WACC computed mode: `Kd_after = Kd/100*(1-tax)`, error when `E+D == 0`,
else `WACC = W_e*Ke_dec + W_d*Kd_after` with `W_e = E/(E+D)`, `W_d = D/(E+D)`. -/
def cost_of_capital_computed (KePct KdPct taxRate E D : ℚ) : Except Err ℚ :=
  let Ke_dec := KePct / 100
  let Kd_after := KdPct / 100 * (1 - taxRate)
  if E + D = 0 then .error .invalidCapitalStructure
  else
    let W_e := E / (E + D)
    let W_d := D / (E + D)
    .ok (W_e * Ke_dec + W_d * Kd_after)

/-- The FCFF forecast stream: `fcff_0 = FCFF0` and
`fcff_{t+1} = fcff_t * (1+g)`, exactly the loop's compounding on the prior
forecast value. -/
def fcffIter (FCFF0 g : ℚ) : Nat → ℚ
  | 0 => FCFF0
  | t + 1 => fcffIter FCFF0 g t * (1 + g)

/-- Accumulated `pvFCFF` after `n` loop iterations:
`pvFCFF += fcff_t / (1+WACC)^t`. -/
def fcffPV (FCFF0 g WACC : ℚ) : Nat → ℚ
  | 0 => 0
  | n + 1 => fcffPV FCFF0 g WACC n + fcffIter FCFF0 g (n + 1) / (1 + WACC) ^ (n + 1)

/-- FCFF branch after input parsing: `NOPAT = EBIT*(1-tax)`,
`FCFF0 = NOPAT + DA - Capex - ΔWC`, `g = ROCE*reinv`; the `WACC <= gT`
check, then the forecast loop, terminal value, enterprise-to-equity bridge,
and only then the `Shares <= 0` check; on success the per-share value and
the margin-of-safety band `(IV*0.8, IV*1.2)` are produced. -/
def fcffValuation (EBIT taxRate DA Capex DeltaWC : ℚ) (years : Nat)
    (ROCE reinv gT WACC Borrowings Cash Shares : ℚ) : Except Err ValuationResult :=
  let NOPAT := EBIT * (1 - taxRate)
  let FCFF0 := NOPAT + DA - Capex - DeltaWC
  let g := ROCE * reinv
  if WACC ≤ gT then .error .invalidGrowthAssumption
  else
    let pvFCFF := fcffPV FCFF0 g WACC years
    let fcffN := fcffIter FCFF0 g years
    let FCFF_Nplus1 := fcffN * (1 + gT)
    let TV := FCFF_Nplus1 / (WACC - gT)
    let PV_TV := TV / (1 + WACC) ^ years
    let EV := pvFCFF + PV_TV
    let NetDebt := Borrowings - Cash
    let EquityValue := EV - NetDebt
    if Shares ≤ 0 then .error .invalidShareCount
    else
      let IVps := EquityValue / Shares
      .ok { iv := IVps, mos := some (IVps * (8 / 10), IVps * (12 / 10)) }

end StableFinancials

namespace StableFinancials

/-- C2: Gordon Growth succeeds with `IV = D1/(Ke-g)` exactly when `g < Ke`,
and both Gordon Growth and the ROE-based DDM (with `g = ROE*(1-payout)`,
`D1 = EPS*payout`) fail with `InvalidGrowthAssumption`, computing no value,
exactly when `g ≥ Ke`, the boundary `g = Ke` included. -/
theorem gordon_roe_growth_guard :
    (∀ D1 Ke g : ℚ, g < Ke →
      gordonGrowth D1 Ke g = .ok { iv := D1 / (Ke - g), mos := none }) ∧
    (∀ D1 Ke g : ℚ, Ke ≤ g →
      gordonGrowth D1 Ke g = .error .invalidGrowthAssumption) ∧
    (∀ EPS ROE payout Ke : ℚ, ROE * (1 - payout) < Ke →
      roeBasedDDM EPS ROE payout Ke =
        .ok { iv := EPS * payout / (Ke - ROE * (1 - payout)), mos := none }) ∧
    (∀ EPS ROE payout Ke : ℚ, Ke ≤ ROE * (1 - payout) →
      roeBasedDDM EPS ROE payout Ke = .error .invalidGrowthAssumption) := by
  refine ⟨?_, ?_, ?_, ?_⟩
  · intro D1 Ke g h
    simp [gordonGrowth, not_le.mpr h]
  · intro D1 Ke g h
    simp [gordonGrowth, h]
  · intro EPS ROE payout Ke h
    simp [roeBasedDDM, g_from_roe, not_le.mpr h]
  · intro EPS ROE payout Ke h
    simp [roeBasedDDM, g_from_roe, h]

/-- Witness for C2 at the spec's end-to-end scenarios: Gordon with
`D1=10, Ke=12%, g=5%` succeeds; Gordon at the boundary `g = Ke = 12%`
fails; ROE-DDM with `EPS=50, ROE=15%, payout=20%, Ke=12%` derives
`g = 0.12 = Ke` and fails. -/
theorem gordon_roe_growth_guard_witness :
    gordonGrowth 10 (12 / 100) (5 / 100) =
      .ok { iv := 10 / (12 / 100 - 5 / 100), mos := none } ∧
    gordonGrowth 10 (12 / 100) (12 / 100) = .error .invalidGrowthAssumption ∧
    roeBasedDDM 50 (15 / 100) (20 / 100) (12 / 100) = .error .invalidGrowthAssumption :=
  ⟨gordon_roe_growth_guard.1 10 (12 / 100) (5 / 100) (by norm_num),
   gordon_roe_growth_guard.2.1 10 (12 / 100) (12 / 100) (by norm_num),
   gordon_roe_growth_guard.2.2.2 50 (15 / 100) (20 / 100) (12 / 100) (by norm_num)⟩

/-- C7: computed-mode cost of capital fails with `InvalidCapitalStructure`
exactly when `E + D = 0` (no fallback value is returned), and otherwise
returns `WACC = (E/(E+D))*(Ke_pct/100) + (D/(E+D))*(Kd_pct/100*(1-tax))`. -/
theorem cost_of_capital_guard :
    (∀ KePct KdPct taxRate E D : ℚ, E + D = 0 →
      cost_of_capital_computed KePct KdPct taxRate E D = .error .invalidCapitalStructure) ∧
    (∀ KePct KdPct taxRate E D : ℚ, E + D ≠ 0 →
      cost_of_capital_computed KePct KdPct taxRate E D =
        .ok (E / (E + D) * (KePct / 100) + D / (E + D) * (KdPct / 100 * (1 - taxRate)))) := by
  constructor
  · intro KePct KdPct taxRate E D h
    simp [cost_of_capital_computed, h]
  · intro KePct KdPct taxRate E D h
    simp [cost_of_capital_computed, h]

/-- Witness for C7: the degenerate structure `E = D = 0` is a hard error,
and `Ke=12%, Kd=8%, tax=25%, E=1000, D=500` yields the computed WACC. -/
theorem cost_of_capital_guard_witness :
    cost_of_capital_computed 12 8 (25 / 100) 0 0 = .error .invalidCapitalStructure ∧
    cost_of_capital_computed 12 8 (25 / 100) 1000 500 =
      .ok (1000 / (1000 + 500) * (12 / 100) +
           500 / (1000 + 500) * (8 / 100 * (1 - 25 / 100))) :=
  ⟨cost_of_capital_guard.1 12 8 (25 / 100) 0 0 (by norm_num),
   cost_of_capital_guard.2 12 8 (25 / 100) 1000 500 (by norm_num)⟩

end StableFinancials

namespace StableFinancials

/-- C1 counterexample: the Gordon Growth branch, on the spec's own
end-to-end scenario `D1=10, Ke=12%, g=5%`, succeeds yet displays no
margin-of-safety band at all (`mos = none`), so not every model produces
the band `[0.8*IV, 1.2*IV]` on success. -/
theorem mos_band_counterexample :
    ¬ (∀ r : ValuationResult, gordonGrowth 10 (12 / 100) (5 / 100) = .ok r →
        r.mos = some (r.iv * (8 / 10), r.iv * (12 / 10))) := by
  intro h
  have := h { iv := 10 / (12 / 100 - 5 / 100), mos := none }
    (by simp [gordonGrowth]; norm_num)
  simp at this

/-- C1 amended: only the FCFF branch produces a margin-of-safety band, and
there it is exactly `(IV*0.8, IV*1.2)` on every success (positive or
negative IV); the four financial-model branches produce no band. -/
theorem mos_band_fcff_only :
    (∀ (EBIT taxRate DA Capex DeltaWC : ℚ) (years : Nat)
        (ROCE reinv gT WACC B C S : ℚ) (r : ValuationResult),
      fcffValuation EBIT taxRate DA Capex DeltaWC years ROCE reinv gT WACC B C S = .ok r →
      r.mos = some (r.iv * (8 / 10), r.iv * (12 / 10))) ∧
    (∀ (D1 Ke g : ℚ) (r : ValuationResult),
      gordonGrowth D1 Ke g = .ok r → r.mos = none) ∧
    (∀ (EPS ROE payout Ke : ℚ) (r : ValuationResult),
      roeBasedDDM EPS ROE payout Ke = .ok r → r.mos = none) ∧
    (∀ (D0 gH : ℚ) (n : Nat) (gS Ke : ℚ) (r : ValuationResult),
      twoStageDDM D0 gH n gS Ke = .ok r → r.mos = none) ∧
    (∀ (BV0 ROE payout Ke : ℚ) (n : Nat) (r : ValuationResult),
      residualIncome BV0 ROE payout Ke n = .ok r → r.mos = none) := by
  refine ⟨?_, ?_, ?_, ?_, ?_⟩
  · intro EBIT taxRate DA Capex DeltaWC years ROCE reinv gT WACC B C S r h
    simp only [fcffValuation] at h
    split at h
    · exact absurd h (by simp)
    · split at h
      · exact absurd h (by simp)
      · simp only [Except.ok.injEq] at h
        subst h
        rfl
  · intro D1 Ke g r h
    simp only [gordonGrowth] at h
    split at h
    · exact absurd h (by simp)
    · simp only [Except.ok.injEq] at h
      subst h
      rfl
  · intro EPS ROE payout Ke r h
    simp only [roeBasedDDM] at h
    split at h
    · exact absurd h (by simp)
    · simp only [Except.ok.injEq] at h
      subst h
      rfl
  · intro D0 gH n gS Ke r h
    simp only [twoStageDDM] at h
    split at h
    · exact absurd h (by simp)
    · simp only [Except.ok.injEq] at h
      subst h
      rfl
  · intro BV0 ROE payout Ke n r h
    simp only [residualIncome, Except.ok.injEq] at h
    subst h
    rfl

/-- Witness for the amended C1: the spec's FCFF scenario 4 with a positive
equity value, and the same scenario loaded with debt so the per-share value
is negative, both carry the exact band; the Gordon scenario carries none. -/
theorem mos_band_fcff_only_witness :
    (∀ r : ValuationResult,
      fcffValuation 1000 (25 / 100) 100 200 50 1 (15 / 100) (40 / 100) (3 / 100)
          (10 / 100) 0 0 100 = .ok r →
      r.mos = some (r.iv * (8 / 10), r.iv * (12 / 10))) ∧
    (∀ r : ValuationResult,
      fcffValuation 1000 (25 / 100) 100 200 50 1 (15 / 100) (40 / 100) (3 / 100)
          (10 / 100) 100000 0 100 = .ok r →
      r.mos = some (r.iv * (8 / 10), r.iv * (12 / 10))) ∧
    (∀ r : ValuationResult, gordonGrowth 10 (12 / 100) (5 / 100) = .ok r → r.mos = none) :=
  ⟨fun r h => mos_band_fcff_only.1 1000 (25 / 100) 100 200 50 1 (15 / 100) (40 / 100)
      (3 / 100) (10 / 100) 0 0 100 r h,
   fun r h => mos_band_fcff_only.1 1000 (25 / 100) 100 200 50 1 (15 / 100) (40 / 100)
      (3 / 100) (10 / 100) 100000 0 100 r h,
   fun r h => mos_band_fcff_only.2.1 10 (12 / 100) (5 / 100) r h⟩

/-- C6: the iteratively compounded FCFF forecast equals the closed form
`FCFF_0 * (1+g)^t` for every `t`, with
`FCFF_0 = EBIT*(1-tax) + DA - Capex - ΔWC` and `g = ROCE*reinv`. -/
theorem fcff_iter_closed_form (EBIT taxRate DA Capex DeltaWC ROCE reinv : ℚ) :
    ∀ t : Nat,
      fcffIter (EBIT * (1 - taxRate) + DA - Capex - DeltaWC) (ROCE * reinv) t =
        (EBIT * (1 - taxRate) + DA - Capex - DeltaWC) * (1 + ROCE * reinv) ^ t := by
  intro t
  induction t with
  | zero => simp [fcffIter]
  | succ k ih =>
    rw [fcffIter, ih, pow_succ]
    ring

end StableFinancials

namespace StableFinancials

/-- Closed form behind C4: with equal high and stable growth `g < Ke`, the
accumulated dividend PV plus the discounted terminal value telescopes to the
Gordon perpetuity `D0*(1+g)/(Ke-g)`, for every horizon. -/
theorem twoStage_equal_growth_closed (D0 g Ke : ℚ) (hg : g < Ke) (hKe : 1 + Ke ≠ 0) :
    ∀ n : Nat,
      twoStagePVDiv D0 g Ke n + D0 * (1 + g) ^ n * (1 + g) / (Ke - g) / (1 + Ke) ^ n =
        D0 * (1 + g) / (Ke - g) := by
  have hKg : Ke - g ≠ 0 := sub_ne_zero.mpr hg.ne'
  intro n
  induction n with
  | zero => simp [twoStagePVDiv]
  | succ k ih =>
    have hp : (1 + Ke) ^ k ≠ 0 := pow_ne_zero _ hKe
    rw [twoStagePVDiv, ← ih]
    field_simp
    ring

/-- C4: for every `n ≥ 1` and all `D0, Ke, g` with `g < Ke` (and a
non-degenerate discount factor `1 + Ke ≠ 0`), the two-stage DDM with equal
high and stable growth equals the Gordon Growth valuation of
`D1 = D0*(1+g)`: `TwoStage(D0, g, n, g, Ke) = Gordon(D0*(1+g), Ke, g)`. -/
theorem two_stage_reduces_to_gordon (D0 g Ke : ℚ) (n : Nat) (hn : 1 ≤ n)
    (hg : g < Ke) (hKe : 1 + Ke ≠ 0) :
    twoStageDDM D0 g n g Ke = gordonGrowth (D0 * (1 + g)) Ke g := by
  have hng : ¬ (g ≥ Ke) := not_le.mpr hg
  simp only [twoStageDDM, gordonGrowth, if_neg hng]
  rw [twoStage_equal_growth_closed D0 g Ke hg hKe n]

/-- Witness for C4 with `D0=8, g=4%, n=5, Ke=12%`. -/
theorem two_stage_reduces_to_gordon_witness :
    twoStageDDM 8 (4 / 100) 5 (4 / 100) (12 / 100) =
      gordonGrowth (8 * (1 + 4 / 100)) (12 / 100) (4 / 100) :=
  two_stage_reduces_to_gordon 8 (4 / 100) (12 / 100) 5 (by norm_num) (by norm_num)
    (by norm_num)

end StableFinancials

namespace StableFinancials

/-- Closed form named by the spec for the full-payout residual-income case:
the sum of `(ROE - Ke) * BV0 / (1+Ke)^t` over `t = 1..n`. -/
def riClosedPV (ROE Ke BV0 : ℚ) : Nat → ℚ
  | 0 => 0
  | n + 1 => riClosedPV ROE Ke BV0 n + (ROE - Ke) * BV0 / (1 + Ke) ^ (n + 1)

/-- With `payout = 1` the residual-income loop keeps the book value at `BV0`
and its accumulated PV is exactly the closed-form sum, for every horizon. -/
theorem riLoop_full_payout (BV0 ROE Ke : ℚ) :
    ∀ n : Nat, riLoop ROE 1 Ke BV0 n = (BV0, riClosedPV ROE Ke BV0 n) := by
  intro n
  induction n with
  | zero => rfl
  | succ k ih =>
    simp only [riLoop, ih, riClosedPV, Prod.mk.injEq]
    constructor
    · ring
    · ring

/-- The closed-form sum vanishes when `ROE = Ke`. -/
theorem riClosedPV_roe_eq_ke (Ke BV0 : ℚ) : ∀ n : Nat, riClosedPV Ke Ke BV0 n = 0 := by
  intro n
  induction n with
  | zero => rfl
  | succ k ih => simp [riClosedPV, ih]

/-- C5 counterexample: at `BV0=100, ROE=15%, payout=1, Ke=12%, horizon=1`
the residual-income branch succeeds with `IV = 100 + 3/1.12 = 2875/28`,
which differs from `BV0 = 100`; so full payout alone does not force
`IV = BV0`. -/
theorem residual_income_counterexample :
    (residualIncome 100 (15 / 100) 1 (12 / 100) 1).map ValuationResult.iv =
      .ok (2875 / 28) ∧ (2875 / 28 : ℚ) ≠ 100 := by
  constructor
  · norm_num [residualIncome, riLoop, Except.map]
  · norm_num

/-- C5 amended: with `payout = 1` the book value stays constant at `BV0`
across all iterations, the loop's accumulated PV equals the closed-form sum
of `(ROE - Ke) * BV0 / (1+Ke)^t` for every horizon, so
`IV = BV0 + Σ (ROE-Ke)*BV0/(1+Ke)^t`; and `IV = BV0` in the special case
`ROE = Ke`. -/
theorem residual_income_full_payout (BV0 ROE Ke : ℚ) (n : Nat) :
    riLoop ROE 1 Ke BV0 n = (BV0, riClosedPV ROE Ke BV0 n) ∧
    residualIncome BV0 ROE 1 Ke n =
      .ok { iv := BV0 + riClosedPV ROE Ke BV0 n, mos := none } ∧
    (ROE = Ke → residualIncome BV0 ROE 1 Ke n = .ok { iv := BV0, mos := none }) := by
  refine ⟨riLoop_full_payout BV0 ROE Ke n, ?_, ?_⟩
  · simp [residualIncome, riLoop_full_payout BV0 ROE Ke n]
  · intro h
    subst h
    simp [residualIncome, riLoop_full_payout BV0 ROE ROE n, riClosedPV_roe_eq_ke]

/-- Witness for the amended C5: full payout with `ROE = Ke = 12%` over a
five-year horizon returns exactly the opening book value. -/
theorem residual_income_full_payout_witness :
    residualIncome 100 (12 / 100) 1 (12 / 100) 5 = .ok { iv := 100, mos := none } :=
  (residual_income_full_payout 100 (12 / 100) (12 / 100) 5).2.2 rfl

/-- C8 counterexample: the FCFF branch accepts `forecast_years = 0` — with
the spec's scenario-4 inputs and zero years it still returns a valuation,
`IV = 618/7` per share, instead of rejecting the input. -/
theorem fcff_zero_years_counterexample :
    fcffValuation 1000 (25 / 100) 100 200 50 0 (15 / 100) (40 / 100) (3 / 100)
        (10 / 100) 0 0 100 =
      .ok { iv := 618 / 7, mos := some (618 / 7 * (8 / 10), 618 / 7 * (12 / 10)) } := by
  norm_num [fcffValuation, fcffPV, fcffIter]

/-- C8 amended: the engine performs no check on `forecast_years`; with
`forecast_years = 0` (and `WACC > gT`, `Shares > 0`) the forecast loop runs
zero times and a result is still produced, whose per-share value is the
undiscounted terminal value on the base FCFF bridged to equity:
`(FCFF0*(1+gT)/(WACC-gT) - (Borrowings - Cash)) / Shares`. -/
theorem fcff_zero_years_accepted (EBIT taxRate DA Capex DeltaWC ROCE reinv gT WACC B C S : ℚ)
    (hW : gT < WACC) (hS : 0 < S) :
    (fcffValuation EBIT taxRate DA Capex DeltaWC 0 ROCE reinv gT WACC B C S).map
        ValuationResult.iv =
      .ok (((EBIT * (1 - taxRate) + DA - Capex - DeltaWC) * (1 + gT) / (WACC - gT)
              - (B - C)) / S) := by
  simp only [fcffValuation]
  rw [if_neg (not_le.mpr hW), if_neg (not_le.mpr hS)]
  simp [fcffPV, fcffIter, Except.map]

/-- Witness for the amended C8 at the scenario-4 inputs with zero years. -/
theorem fcff_zero_years_accepted_witness :
    (fcffValuation 1000 (25 / 100) 100 200 50 0 (15 / 100) (40 / 100) (3 / 100)
        (10 / 100) 0 0 100).map ValuationResult.iv =
      .ok (((1000 * (1 - 25 / 100) + 100 - 200 - 50) * (1 + 3 / 100)
              / (10 / 100 - 3 / 100) - ((0 : ℚ) - 0)) / 100) :=
  fcff_zero_years_accepted 1000 (25 / 100) 100 200 50 (15 / 100) (40 / 100) (3 / 100)
    (10 / 100) 0 0 100 (by norm_num) (by norm_num)

end StableFinancials

namespace StableFinancials

/-- Company label used when the ticker field is empty. -/
def unknownLabel : String := "Unknown"

/-- Model label of the Gordon branch's save call. -/
def gordonLabel : String := "Financials - Gordon DDM"

/-- Model label of the ROE-DDM branch's save call. -/
def roeLabel : String := "Financials - ROE-DDM"

/-- Model label of the two-stage branch's save call. -/
def twoStageLabel : String := "Financials - Two-stage DDM"

/-- Model label of the residual-income branch's save call. -/
def riLabel : String := "Financials - Residual Income"

/-- Model label of the FCFF branch's save call. -/
def fcffLabel : String := "Non-Financials - FCFF"

/-- The company argument of every save call in the source:
`ticker if ticker else "Unknown"` (Python string truthiness). -/
def companyLabel (ticker : String) : String :=
  if ticker = "" then unknownLabel else ticker

/-- Observable events of one calculation attempt, in the source's order:
a forecast-loop iteration, an error display, a success display, and a
history append. -/
inductive Event where
  | forecastStep (t : Nat) (v : ℚ)
  | errored (e : Err)
  | succeeded (iv : ℚ)
  | savedHistory (company : String) (iv : ℚ) (model : String)
deriving DecidableEq

/-- Gordon branch trace: the `g >= Ke` check, then success display followed
by the history append. -/
def gordonTrace (ticker : String) (D1 Ke g : ℚ) : List Event :=
  if g ≥ Ke then [.errored .invalidGrowthAssumption]
  else
    let v := D1 / (Ke - g)
    [.succeeded v, .savedHistory (companyLabel ticker) v gordonLabel]

/-- ROE-DDM branch trace. -/
def roeTrace (ticker : String) (EPS ROE payout Ke : ℚ) : List Event :=
  let g := g_from_roe ROE payout
  let D1 := EPS * payout
  if g ≥ Ke then [.errored .invalidGrowthAssumption]
  else
    let v := D1 / (Ke - g)
    [.succeeded v, .savedHistory (companyLabel ticker) v roeLabel]

/-- The two-stage dividend loop's per-iteration events
`Dt = D0*(1+g_high)^t` for `t = 1..n`, emitted before the stable-growth
check in the source. -/
def twoStageDividendEvents (D0 gHigh : ℚ) (n : Nat) : List Event :=
  (List.range n).map fun k => .forecastStep (k + 1) (D0 * (1 + gHigh) ^ (k + 1))

/-- Two-stage branch trace: dividend loop first, then the `g_stable >= Ke`
check, then success and history append. -/
def twoStageTrace (ticker : String) (D0 gHigh : ℚ) (n : Nat) (gStable Ke : ℚ) : List Event :=
  twoStageDividendEvents D0 gHigh n ++
    if gStable ≥ Ke then [.errored .invalidGrowthAssumption]
    else
      let v := twoStagePVDiv D0 gHigh Ke n +
        D0 * (1 + gHigh) ^ n * (1 + gStable) / (Ke - gStable) / (1 + Ke) ^ n
      [.succeeded v, .savedHistory (companyLabel ticker) v twoStageLabel]

/-- Residual-income branch trace: no precondition, success then append. -/
def riTrace (ticker : String) (BV0 ROE payout Ke : ℚ) (horizon : Nat) : List Event :=
  let v := BV0 + (riLoop ROE payout Ke BV0 horizon).2
  [.succeeded v, .savedHistory (companyLabel ticker) v riLabel]

/-- The FCFF forecast loop's per-iteration events `fcff_t` for
`t = 1..years`. -/
def fcffForecastEvents (FCFF0 g : ℚ) (years : Nat) : List Event :=
  (List.range years).map fun k => .forecastStep (k + 1) (fcffIter FCFF0 g (k + 1))

/-- FCFF branch trace: the `WACC <= gT` check, then the forecast loop, and
only after it the `Shares <= 0` check, then success and history append. -/
def fcffTrace (ticker : String) (EBIT taxRate DA Capex DeltaWC : ℚ) (years : Nat)
    (ROCE reinv gT WACC Borrowings Cash Shares : ℚ) : List Event :=
  let FCFF0 := EBIT * (1 - taxRate) + DA - Capex - DeltaWC
  let g := ROCE * reinv
  if WACC ≤ gT then [.errored .invalidGrowthAssumption]
  else
    fcffForecastEvents FCFF0 g years ++
      if Shares ≤ 0 then [.errored .invalidShareCount]
      else
        let v := (fcffPV FCFF0 g WACC years +
            fcffIter FCFF0 g years * (1 + gT) / (WACC - gT) / (1 + WACC) ^ years -
            (Borrowings - Cash)) / Shares
        [.succeeded v, .savedHistory (companyLabel ticker) v fcffLabel]

/-- FCFF branch with computed-mode WACC: a capital-structure failure stops
the attempt before any FCFF step; otherwise the FCFF trace runs with the
computed rate. -/
def fcffComputedWaccTrace (ticker : String) (EBIT taxRate DA Capex DeltaWC : ℚ)
    (years : Nat) (ROCE reinv gT KePct KdPct E D Borrowings Cash Shares : ℚ) : List Event :=
  match cost_of_capital_computed KePct KdPct taxRate E D with
  | .error e => [.errored e]
  | .ok WACC =>
    fcffTrace ticker EBIT taxRate DA Capex DeltaWC years ROCE reinv gT WACC
      Borrowings Cash Shares

/-- A trace fails terminally: any displayed error is its final event, and
the attempt displays no success and appends nothing to the history log. -/
def terminalFailure (tr : List Event) : Prop :=
  ∀ e : Err, Event.errored e ∈ tr →
    tr.getLast? = some (Event.errored e) ∧
    (∀ iv : ℚ, Event.succeeded iv ∉ tr) ∧
    (∀ c m : String, ∀ iv : ℚ, Event.savedHistory c iv m ∉ tr)

/-- Sample non-empty ticker for concrete evaluations. -/
def sampleTicker : String := "INFY"

/-- The empty ticker. -/
def emptyTicker : String := ""

end StableFinancials

namespace StableFinancials

/-- C3 counterexample: with `Shares = 0` (scenario-4 inputs, one forecast
year) the FCFF branch runs a forecast iteration first — the trace opens
with `fcff_1 = 636` — and only then errors with `InvalidShareCount`; the
share-count check does not fire before the loop. -/
theorem fcff_share_check_counterexample :
    fcffTrace sampleTicker 1000 (25 / 100) 100 200 50 1 (15 / 100) (40 / 100) (3 / 100)
        (10 / 100) 0 0 0 =
      [Event.forecastStep 1 636, Event.errored Err.invalidShareCount] := by
  norm_num [fcffTrace, fcffForecastEvents, fcffIter, List.range_succ]

/-- C3 amended: whenever shares outstanding is zero or negative (and the
earlier `WACC > gT` check passes), the FCFF attempt fails with
`InvalidShareCount` and produces no per-share value — but the check fires
only after the forecast loop has executed: the trace is the full list of
forecast iterations followed by the error. -/
theorem fcff_share_check_after_loop (ticker : String)
    (EBIT taxRate DA Capex DeltaWC : ℚ) (years : Nat)
    (ROCE reinv gT WACC Borrowings Cash Shares : ℚ)
    (hW : gT < WACC) (hS : Shares ≤ 0) :
    fcffValuation EBIT taxRate DA Capex DeltaWC years ROCE reinv gT WACC
        Borrowings Cash Shares = .error .invalidShareCount ∧
    fcffTrace ticker EBIT taxRate DA Capex DeltaWC years ROCE reinv gT WACC
        Borrowings Cash Shares =
      fcffForecastEvents (EBIT * (1 - taxRate) + DA - Capex - DeltaWC) (ROCE * reinv)
          years ++ [Event.errored Err.invalidShareCount] := by
  constructor
  · simp only [fcffValuation]
    rw [if_neg (not_le.mpr hW), if_pos hS]
  · simp only [fcffTrace]
    rw [if_neg (not_le.mpr hW), if_pos hS]

/-- Witness for the amended C3 at the counterexample's inputs. -/
theorem fcff_share_check_after_loop_witness :
    fcffValuation 1000 (25 / 100) 100 200 50 1 (15 / 100) (40 / 100) (3 / 100)
        (10 / 100) 0 0 0 = .error .invalidShareCount ∧
    fcffTrace sampleTicker 1000 (25 / 100) 100 200 50 1 (15 / 100) (40 / 100) (3 / 100)
        (10 / 100) 0 0 0 =
      fcffForecastEvents (1000 * (1 - 25 / 100) + 100 - 200 - 50)
          (15 / 100 * (40 / 100)) 1 ++ [Event.errored Err.invalidShareCount] :=
  fcff_share_check_after_loop sampleTicker 1000 (25 / 100) 100 200 50 1 (15 / 100)
    (40 / 100) (3 / 100) (10 / 100) 0 0 0 (by norm_num) (by norm_num)

/-- Failures in the Gordon branch are terminal. -/
theorem gordonTrace_terminal (ticker : String) (D1 Ke g : ℚ) :
    terminalFailure (gordonTrace ticker D1 Ke g) := by
  intro e he
  simp only [gordonTrace] at he ⊢
  by_cases h : g ≥ Ke
  · rw [if_pos h] at he ⊢
    simp only [List.mem_singleton, Event.errored.injEq] at he
    subst he
    exact ⟨rfl, by simp, by simp⟩
  · rw [if_neg h] at he
    simp at he

/-- Failures in the ROE-DDM branch are terminal. -/
theorem roeTrace_terminal (ticker : String) (EPS ROE payout Ke : ℚ) :
    terminalFailure (roeTrace ticker EPS ROE payout Ke) := by
  intro e he
  simp only [roeTrace] at he ⊢
  by_cases h : g_from_roe ROE payout ≥ Ke
  · rw [if_pos h] at he ⊢
    simp only [List.mem_singleton, Event.errored.injEq] at he
    subst he
    exact ⟨rfl, by simp, by simp⟩
  · rw [if_neg h] at he
    simp at he

/-- Failures in the two-stage branch are terminal (the dividend loop runs
first, but nothing follows the error). -/
theorem twoStageTrace_terminal (ticker : String) (D0 gHigh : ℚ) (n : Nat)
    (gStable Ke : ℚ) :
    terminalFailure (twoStageTrace ticker D0 gHigh n gStable Ke) := by
  intro e he
  simp only [twoStageTrace] at he ⊢
  by_cases h : gStable ≥ Ke
  · rw [if_pos h] at he ⊢
    have he' : e = Err.invalidGrowthAssumption := by
      simpa [twoStageDividendEvents] using he
    subst he'
    refine ⟨List.getLast?_concat _, ?_, ?_⟩
    · intro iv
      simp [twoStageDividendEvents]
    · intro c m iv
      simp [twoStageDividendEvents]
  · rw [if_neg h] at he
    simp [twoStageDividendEvents] at he

/-- The residual-income branch has no failure path at all. -/
theorem riTrace_terminal (ticker : String) (BV0 ROE payout Ke : ℚ) (horizon : Nat) :
    terminalFailure (riTrace ticker BV0 ROE payout Ke horizon) := by
  intro e he
  simp [riTrace] at he

/-- Failures in the FCFF branch are terminal. -/
theorem fcffTrace_terminal (ticker : String) (EBIT taxRate DA Capex DeltaWC : ℚ)
    (years : Nat) (ROCE reinv gT WACC Borrowings Cash Shares : ℚ) :
    terminalFailure (fcffTrace ticker EBIT taxRate DA Capex DeltaWC years ROCE reinv
      gT WACC Borrowings Cash Shares) := by
  intro e he
  simp only [fcffTrace] at he ⊢
  by_cases hW : WACC ≤ gT
  · rw [if_pos hW] at he ⊢
    simp only [List.mem_singleton, Event.errored.injEq] at he
    subst he
    exact ⟨rfl, by simp, by simp⟩
  · rw [if_neg hW] at he ⊢
    by_cases hS : Shares ≤ 0
    · rw [if_pos hS] at he ⊢
      have he' : e = Err.invalidShareCount := by
        simpa [fcffForecastEvents] using he
      subst he'
      refine ⟨List.getLast?_concat _, ?_, ?_⟩
      · intro iv
        simp [fcffForecastEvents]
      · intro c m iv
        simp [fcffForecastEvents]
    · rw [if_neg hS] at he
      simp [fcffForecastEvents] at he

/-- Failures in the FCFF branch with computed WACC are terminal; a
capital-structure failure happens before any FCFF computation. -/
theorem fcffComputedWaccTrace_terminal (ticker : String)
    (EBIT taxRate DA Capex DeltaWC : ℚ) (years : Nat)
    (ROCE reinv gT KePct KdPct E D Borrowings Cash Shares : ℚ) :
    terminalFailure (fcffComputedWaccTrace ticker EBIT taxRate DA Capex DeltaWC years
      ROCE reinv gT KePct KdPct E D Borrowings Cash Shares) := by
  simp only [fcffComputedWaccTrace, cost_of_capital_computed]
  by_cases hED : E + D = 0
  · rw [if_pos hED]
    intro e he
    simp only [List.mem_singleton, Event.errored.injEq] at he
    subst he
    exact ⟨rfl, by simp, by simp⟩
  · rw [if_neg hED]
    exact fcffTrace_terminal ticker EBIT taxRate DA Capex DeltaWC years ROCE reinv gT _
      Borrowings Cash Shares

end StableFinancials

namespace StableFinancials

/-- C9: every precondition failure (`InvalidGrowthAssumption`,
`InvalidCapitalStructure`, `InvalidShareCount`) is a terminal outcome of
the attempt, in every branch: the error display is the final event of the
trace, no intrinsic value (partial or otherwise) is displayed, and no
record is appended to the history log. -/
theorem failures_are_terminal :
    (∀ (ticker : String) (D1 Ke g : ℚ), terminalFailure (gordonTrace ticker D1 Ke g)) ∧
    (∀ (ticker : String) (EPS ROE payout Ke : ℚ),
      terminalFailure (roeTrace ticker EPS ROE payout Ke)) ∧
    (∀ (ticker : String) (D0 gHigh : ℚ) (n : Nat) (gStable Ke : ℚ),
      terminalFailure (twoStageTrace ticker D0 gHigh n gStable Ke)) ∧
    (∀ (ticker : String) (BV0 ROE payout Ke : ℚ) (horizon : Nat),
      terminalFailure (riTrace ticker BV0 ROE payout Ke horizon)) ∧
    (∀ (ticker : String) (EBIT taxRate DA Capex DeltaWC : ℚ) (years : Nat)
        (ROCE reinv gT WACC Borrowings Cash Shares : ℚ),
      terminalFailure (fcffTrace ticker EBIT taxRate DA Capex DeltaWC years ROCE reinv
        gT WACC Borrowings Cash Shares)) ∧
    (∀ (ticker : String) (EBIT taxRate DA Capex DeltaWC : ℚ) (years : Nat)
        (ROCE reinv gT KePct KdPct E D Borrowings Cash Shares : ℚ),
      terminalFailure (fcffComputedWaccTrace ticker EBIT taxRate DA Capex DeltaWC years
        ROCE reinv gT KePct KdPct E D Borrowings Cash Shares)) :=
  ⟨gordonTrace_terminal, roeTrace_terminal, twoStageTrace_terminal, riTrace_terminal,
   fcffTrace_terminal, fcffComputedWaccTrace_terminal⟩

/-- Witness for C9: at the boundary failure `g = Ke = 12%` the Gordon
trace ends at the error event. -/
theorem failures_are_terminal_witness :
    (gordonTrace sampleTicker 10 (12 / 100) (12 / 100)).getLast? =
      some (Event.errored Err.invalidGrowthAssumption) :=
  (failures_are_terminal.1 sampleTicker 10 (12 / 100) (12 / 100)
    Err.invalidGrowthAssumption (by norm_num [gordonTrace])).1

/-- C10: for every successful calculation, in every branch, the history
append carries the company label `companyLabel ticker` — the user-entered
ticker when non-empty, the literal "Unknown" when empty — and the trace of
a successful attempt ends with exactly that append. -/
theorem history_company_label :
    companyLabel emptyTicker = unknownLabel ∧
    (∀ ticker : String, ticker ≠ "" → companyLabel ticker = ticker) ∧
    (∀ (ticker : String) (D1 Ke g : ℚ) (r : ValuationResult),
      gordonGrowth D1 Ke g = .ok r →
      (gordonTrace ticker D1 Ke g).getLast? =
        some (Event.savedHistory (companyLabel ticker) r.iv gordonLabel)) ∧
    (∀ (ticker : String) (EPS ROE payout Ke : ℚ) (r : ValuationResult),
      roeBasedDDM EPS ROE payout Ke = .ok r →
      (roeTrace ticker EPS ROE payout Ke).getLast? =
        some (Event.savedHistory (companyLabel ticker) r.iv roeLabel)) ∧
    (∀ (ticker : String) (D0 gHigh : ℚ) (n : Nat) (gStable Ke : ℚ) (r : ValuationResult),
      twoStageDDM D0 gHigh n gStable Ke = .ok r →
      (twoStageTrace ticker D0 gHigh n gStable Ke).getLast? =
        some (Event.savedHistory (companyLabel ticker) r.iv twoStageLabel)) ∧
    (∀ (ticker : String) (BV0 ROE payout Ke : ℚ) (horizon : Nat) (r : ValuationResult),
      residualIncome BV0 ROE payout Ke horizon = .ok r →
      (riTrace ticker BV0 ROE payout Ke horizon).getLast? =
        some (Event.savedHistory (companyLabel ticker) r.iv riLabel)) ∧
    (∀ (ticker : String) (EBIT taxRate DA Capex DeltaWC : ℚ) (years : Nat)
        (ROCE reinv gT WACC Borrowings Cash Shares : ℚ) (r : ValuationResult),
      fcffValuation EBIT taxRate DA Capex DeltaWC years ROCE reinv gT WACC
          Borrowings Cash Shares = .ok r →
      (fcffTrace ticker EBIT taxRate DA Capex DeltaWC years ROCE reinv gT WACC
          Borrowings Cash Shares).getLast? =
        some (Event.savedHistory (companyLabel ticker) r.iv fcffLabel)) := by
  refine ⟨rfl, ?_, ?_, ?_, ?_, ?_, ?_⟩
  · intro ticker h
    simp [companyLabel, h]
  · intro ticker D1 Ke g r h
    by_cases hc : g ≥ Ke
    · simp only [gordonGrowth, if_pos hc] at h
      exact absurd h (by simp)
    · simp only [gordonGrowth, if_neg hc] at h
      simp only [Except.ok.injEq] at h
      subst h
      simp only [gordonTrace, if_neg hc]
      rfl
  · intro ticker EPS ROE payout Ke r h
    by_cases hc : g_from_roe ROE payout ≥ Ke
    · simp only [roeBasedDDM, if_pos hc] at h
      exact absurd h (by simp)
    · simp only [roeBasedDDM, if_neg hc] at h
      simp only [Except.ok.injEq] at h
      subst h
      simp only [roeTrace, if_neg hc]
      rfl
  · intro ticker D0 gHigh n gStable Ke r h
    by_cases hc : gStable ≥ Ke
    · simp only [twoStageDDM, if_pos hc] at h
      exact absurd h (by simp)
    · simp only [twoStageDDM, if_neg hc] at h
      simp only [Except.ok.injEq] at h
      subst h
      simp only [twoStageTrace, if_neg hc]
      simp [List.getLast?_append]
  · intro ticker BV0 ROE payout Ke horizon r h
    simp only [residualIncome, Except.ok.injEq] at h
    subst h
    rfl
  · intro ticker EBIT taxRate DA Capex DeltaWC years ROCE reinv gT WACC B C S r h
    by_cases hW : WACC ≤ gT
    · simp only [fcffValuation, if_pos hW] at h
      exact absurd h (by simp)
    · by_cases hS : S ≤ 0
      · simp only [fcffValuation, if_neg hW, if_pos hS] at h
        exact absurd h (by simp)
      · simp only [fcffValuation, if_neg hW, if_neg hS] at h
        simp only [Except.ok.injEq] at h
        subst h
        simp only [fcffTrace, if_neg hW, if_neg hS]
        simp [List.getLast?_append]

/-- Witness for C10: with an empty ticker, the Gordon scenario's history
append carries the label of the empty ticker, which is "Unknown". -/
theorem history_company_label_witness :
    (gordonTrace emptyTicker 10 (12 / 100) (5 / 100)).getLast? =
      some (Event.savedHistory (companyLabel emptyTicker) (10 / (12 / 100 - 5 / 100))
        gordonLabel) :=
  history_company_label.2.2.1 emptyTicker 10 (12 / 100) (5 / 100)
    { iv := 10 / (12 / 100 - 5 / 100), mos := none } (by norm_num [gordonGrowth])

end StableFinancials
